import Mathlib

/-!
Verification of the wellness check-in backend (`backend.py`): a lexicon-based
sentiment scorer, a rule-based recommender, and an append-only SQLite store
with listing and summary endpoints.  Python strings are modelled
character-wise (`List Char` / `String`), Python float arithmetic on the small
exact quantities involved is modelled by `Rat`, and the SQLite table by an
explicit state structure.
-/

/-- The fixed positive lexicon, `POSITIVE` in `backend.py` line 19. -/
def POSITIVE : List String :=
  ["happy", "good", "great", "awesome", "calm", "relaxed", "grateful",
   "energetic", "motivated", "hopeful"]

/-- The fixed negative lexicon, `NEGATIVE` in `backend.py` line 20. -/
def NEGATIVE : List String :=
  ["sad", "depressed", "anxious", "stressed", "angry", "lonely", "tired",
   "hopeless"]

/-- The punctuation characters stripped by `w.strip('.,!?')`. -/
def isPunct (c : Char) : Bool :=
  c == '.' || c == ',' || c == '!' || c == '?'

/-- Model of CPython `str.strip('.,!?')`: remove the longest run of the given
punctuation characters from the front and from the back of the token. -/
def pyStrip (cs : List Char) : List Char :=
  ((cs.dropWhile isPunct).reverse.dropWhile isPunct).reverse

/-- Model of CPython `str.split()` with no argument: split on runs of
whitespace, discarding empty pieces. -/
def pyWords (cs : List Char) : List (List Char) :=
  (cs.splitOnP (fun c => c.isWhitespace)).filter (fun w => !w.isEmpty)

/-- Per-token normalisation of the scorer, `w.strip('.,!?').lower()`
(`backend.py` line 25); `lower` is modelled per character (the lexicon and
the inputs of interest are ASCII). -/
def normToken (w : List Char) : String :=
  String.mk ((pyStrip w).map Char.toLower)

/-- The token list the scorer tests against the lexicons:
`[w.strip('.,!?').lower() for w in text.split()]` (`backend.py` line 25). -/
def tokensOf (text : String) : List String :=
  (pyWords text.toList).map normToken

/-- Count of tokens in the positive lexicon, `pos` in `backend.py` line 26. -/
def posCount (text : String) : Nat :=
  (tokensOf text).countP (fun t => POSITIVE.contains t)

/-- Count of tokens in the negative lexicon, `neg` in `backend.py` line 27. -/
def negCount (text : String) : Nat :=
  (tokensOf text).countP (fun t => NEGATIVE.contains t)

/-- The Scorer, `score_sentiment` in `backend.py` lines 22-31: `0.0` on empty
text or when no lexicon words occur, else `(pos - neg) / (pos + neg)`. -/
def score_sentiment (text : String) : Rat :=
  if text = "" then 0
  else
    let pos := posCount text
    let neg := negCount text
    let total := pos + neg
    if total = 0 then 0
    else ((pos : Rat) - (neg : Rat)) / (total : Rat)

/-- Substring test on character lists: true when `needle` occurs contiguously
in `hay`; models CPython `needle in hay` for strings. -/
def containsSub (needle : List Char) : List Char → Bool
  | [] => needle.isEmpty
  | c :: rest => List.isPrefixOf needle (c :: rest) || containsSub needle rest

/-- The test `'sleep' in text.lower()` of `backend.py` line 41 (`lower`
modelled per character). -/
def sleepIn (text : String) : Bool :=
  containsSub "sleep".toList (text.toList.map Char.toLower)

/-- The four advice strings of `recommendation`, `backend.py` lines 37-42. -/
def tipBreath : String := "Try a 5-minute breathing exercise or short walk."

/-- Second tip of the low-mood branch, `backend.py` line 38. -/
def tipReach : String :=
  "If this persists, consider reaching out to a friend or professional."

/-- The gratitude tip of the positive branch, `backend.py` line 40. -/
def tipGrat : String := "Great! Keep a short gratitude list today."

/-- The sleep-hygiene tip, `backend.py` line 42. -/
def tipSleep : String :=
  "Aim for consistent sleep schedule — wind down 30 mins before bed."

/-- The Recommender, `recommendation` in `backend.py` lines 34-43. -/
def recommendation (rating : Int) (sentiment : Rat) (text : String) :
    List String :=
  let tips : List String := []
  let tips := if rating ≤ 3 ∨ sentiment < -(1/5 : Rat)
    then tips ++ [tipBreath, tipReach] else tips ++ [tipGrat]
  let tips := if sleepIn text then tips ++ [tipSleep] else tips
  tips

/-- One persisted row of the `entries` table: `date` holds the ISO timestamp
string assigned at insertion, and `id` is the list position. -/
structure Entry where
  date : String
  rating : Int
  note : String
  sentiment : Rat
deriving DecidableEq

/-- Model of CPython `int(s)` digit parsing after sign: a decimal digit
followed by digits optionally separated by single underscores. -/
def pyDigits (acc : Nat) : List Char → Option Nat
  | [] => some acc
  | '_' :: c :: rest =>
      if c.isDigit then pyDigits (acc * 10 + (c.toNat - 48)) rest else none
  | c :: rest =>
      if c.isDigit then pyDigits (acc * 10 + (c.toNat - 48)) rest else none

/-- Model of CPython `int(s)` on a string: surrounding whitespace is ignored,
then an optional sign and a nonempty underscore-grouped digit run; `none`
models the `ValueError` raised on any other input. -/
def pyParseInt (s : String) : Option Int :=
  let cs := ((s.toList.dropWhile Char.isWhitespace).reverse.dropWhile
    Char.isWhitespace).reverse
  match cs with
  | '+' :: c :: rest =>
      if c.isDigit then (pyDigits (c.toNat - 48) rest).map Int.ofNat else none
  | '-' :: c :: rest =>
      if c.isDigit then (pyDigits (c.toNat - 48) rest).map
        (fun n => -(n : Int)) else none
  | c :: rest =>
      if c.isDigit then (pyDigits (c.toNat - 48) rest).map Int.ofNat else none
  | [] => none

/-- The `/submit` route, `backend.py` lines 98-111, with the request form and
the insertion timestamp as explicit inputs.  `request.form['rating']` raises
when the field is absent and `int(...)` raises on a non-integer string; both
reject the request before any row is inserted, modelled by returning the
store unchanged with no tips.  Otherwise the note defaults to `""`
(`request.form.get('note','')`), the sentiment is computed from the note, the
row is appended, and the recommendations are returned. -/
def submit (st : List Entry) (form_rating form_note : Option String)
    (ts : String) : List Entry × Option (List String) :=
  match form_rating with
  | none => (st, none)
  | some rs =>
    match pyParseInt rs with
    | none => (st, none)
    | some r =>
      let note := form_note.getD ""
      let sent := score_sentiment note
      (st ++ [⟨ts, r, note, sent⟩], some (recommendation r sent note))

/-- The `/data` route, `backend.py` lines 113-118: all rows in insertion
order, reduced to the first 10 characters of the timestamp (Python slice
`r['date'][:10]`) and the rating. -/
def data (st : List Entry) : List (String × Int) :=
  st.map (fun e => (String.mk (e.date.toList.take 10), e.rating))

/-- Result shape of the `/summary` route: either the degenerate count-only
object `{'count': 0}` or the full statistics object. -/
inductive Summary where
  | countOnly (count : Nat)
  | stats (count : Nat) (avg_rating median_rating avg_sentiment : Rat)
deriving DecidableEq

/-- Model of CPython `statistics.mean` on integer data: exact sum divided by
the length. -/
def pyMeanInt (l : List Int) : Rat := ((l.sum : Int) : Rat) / (l.length : Rat)

/-- Model of CPython `statistics.mean` on the stored sentiment values. -/
def pyMeanRat (l : List Rat) : Rat := l.sum / (l.length : Rat)

/-- Model of CPython `statistics.median`: sort the data; for odd length take
`data[n // 2]`, for even length average `data[n // 2 - 1]` and
`data[n // 2]`. -/
def pyMedian (l : List Int) : Rat :=
  let s := List.insertionSort (fun a b => a ≤ b) l
  let n := s.length
  if n % 2 = 1 then ((s.getD (n / 2) 0 : Int) : Rat)
  else (((s.getD (n / 2 - 1) 0 : Int) : Rat) + ((s.getD (n / 2) 0 : Int) : Rat)) / 2

/-- The `/summary` route, `backend.py` lines 120-133: `{'count': 0}` on an
empty store, else count, mean rating, median rating and mean sentiment. -/
def summary (st : List Entry) : Summary :=
  if st = [] then Summary.countOnly 0
  else Summary.stats st.length (pyMeanInt (st.map Entry.rating))
    (pyMedian (st.map Entry.rating)) (pyMeanRat (st.map Entry.sentiment))

/-- Value of the scorer on nonempty text with at least one lexicon hit. -/
lemma score_sentiment_eq_div (text : String) (ht : text ≠ "")
    (h0 : posCount text + negCount text ≠ 0) :
    score_sentiment text =
      ((posCount text : Rat) - (negCount text : Rat)) /
        ((posCount text : Rat) + (negCount text : Rat)) := by
  simp [score_sentiment, ht, h0]

/-- C1: for every text the Scorer returns 0 when the text is empty or no
lexicon token occurs (hence also on equal counts), otherwise returns
`(pos - neg) / (pos + neg)`, and the value always lies in `[-1, 1]`. -/
theorem scorer_value_and_range (text : String) :
    ((-1 : Rat) ≤ score_sentiment text ∧ score_sentiment text ≤ 1)
    ∧ (text = "" ∨ posCount text + negCount text = 0 →
        score_sentiment text = 0)
    ∧ (posCount text = negCount text → score_sentiment text = 0)
    ∧ (text ≠ "" → posCount text + negCount text ≠ 0 →
        score_sentiment text =
          ((posCount text : Rat) - (negCount text : Rat)) /
            ((posCount text : Rat) + (negCount text : Rat))) := by
  by_cases ht : text = ""
  · refine ⟨?_, ?_, ?_, ?_⟩ <;> simp [score_sentiment, ht]
  by_cases h0 : posCount text + negCount text = 0
  · have hz : score_sentiment text = 0 := by simp [score_sentiment, ht, h0]
    refine ⟨?_, ?_, ?_, ?_⟩ <;> simp [hz, h0, ht]
  · have heq := score_sentiment_eq_div text ht h0
    have hp : (0 : Rat) ≤ (posCount text : Rat) := by positivity
    have hn : (0 : Rat) ≤ (negCount text : Rat) := by positivity
    have hd : (0 : Rat) < (posCount text : Rat) + (negCount text : Rat) := by
      have : 0 < posCount text + negCount text := Nat.pos_of_ne_zero h0
      exact_mod_cast this
    refine ⟨⟨?_, ?_⟩, ?_, ?_, fun _ _ => heq⟩
    · rw [heq, le_div_iff₀ hd]; linarith
    · rw [heq, div_le_one hd]; linarith
    · rintro (h | h)
      · exact absurd h ht
      · exact absurd h h0
    · intro h
      rw [heq, h]
      simp

/-- Witness for C1 at concrete inputs: no-hit text scores 0, an all-negative
text stays within the bounds, equal counts give 0, and a mixed text matches
the quotient formula. -/
theorem scorer_value_and_range_witness :
    score_sentiment "fine thanks" = 0
    ∧ ((-1 : Rat) ≤ score_sentiment "I am sad and anxious"
        ∧ score_sentiment "I am sad and anxious" ≤ 1)
    ∧ score_sentiment "happy sad" = 0
    ∧ score_sentiment "I am sad and anxious" =
        ((posCount "I am sad and anxious" : Rat) -
            (negCount "I am sad and anxious" : Rat)) /
          ((posCount "I am sad and anxious" : Rat) +
            (negCount "I am sad and anxious" : Rat)) :=
  ⟨(scorer_value_and_range "fine thanks").2.1 (Or.inr (by decide)),
   (scorer_value_and_range "I am sad and anxious").1,
   (scorer_value_and_range "happy sad").2.2.1 (by decide),
   (scorer_value_and_range "I am sad and anxious").2.2.2 (by decide) (by decide)⟩

/-- Branch-explicit form of the Recommender: the mood branch contributes
`[tipBreath, tipReach]` or `[tipGrat]`, and the sleep check appends
`[tipSleep]`. -/
lemma recommendation_eq (rating : Int) (sentiment : Rat) (text : String) :
    recommendation rating sentiment text =
      (if rating ≤ 3 ∨ sentiment < -(1/5 : Rat) then [tipBreath, tipReach]
        else [tipGrat])
        ++ (if sleepIn text then [tipSleep] else []) := by
  simp only [recommendation]
  split_ifs <;> simp

/-- C2: the Recommender opens with the breathing tip immediately followed by
the reach-out tip exactly when `rating ≤ 3` or `sentiment < -0.2`, otherwise
with the single gratitude tip; the sleep tip is the last element exactly when
the text contains "sleep" case-insensitively; the output is never empty. -/
theorem recommender_structure (rating : Int) (sentiment : Rat)
    (text : String) :
    ((rating ≤ 3 ∨ sentiment < -(1/5 : Rat)) →
        (recommendation rating sentiment text).take 2 = [tipBreath, tipReach])
    ∧ (¬(rating ≤ 3 ∨ sentiment < -(1/5 : Rat)) →
        ((recommendation rating sentiment text).take 1 = [tipGrat]
          ∧ (sleepIn text = false →
              recommendation rating sentiment text = [tipGrat])))
    ∧ (sleepIn text = true ↔
        (recommendation rating sentiment text).getLast? = some tipSleep)
    ∧ recommendation rating sentiment text ≠ [] := by
  have hBS : tipReach ≠ tipSleep := by decide
  have hGS : tipGrat ≠ tipSleep := by decide
  by_cases hc : rating ≤ 3 ∨ sentiment < -(1/5 : Rat)
  · cases hs : sleepIn text
    · rw [recommendation_eq, if_pos hc, hs]
      refine ⟨fun _ => rfl, fun hnc => absurd hc hnc, ?_, ?_⟩ <;> simp [hBS]
    · rw [recommendation_eq, if_pos hc, hs]
      refine ⟨fun _ => rfl, fun hnc => absurd hc hnc, ?_, ?_⟩ <;> simp
  · cases hs : sleepIn text
    · rw [recommendation_eq, if_neg hc, hs]
      refine ⟨fun h => absurd h hc, fun _ => ⟨rfl, fun _ => by simp⟩, ?_, ?_⟩
        <;> simp [hGS]
    · rw [recommendation_eq, if_neg hc, hs]
      refine ⟨fun h => absurd h hc,
        fun _ => ⟨rfl, fun h => by simp at h⟩, ?_, ?_⟩ <;> simp

/-- Witness for C2: the low-mood branch with a sleep mention shows the two
leading tips and the trailing sleep tip, and the positive branch without a
sleep mention yields exactly the gratitude tip. -/
theorem recommender_structure_witness :
    (recommendation 2 0 "bad sleep last night").take 2 = [tipBreath, tipReach]
    ∧ (recommendation 2 0 "bad sleep last night").getLast? = some tipSleep
    ∧ recommendation 5 (1/2) "great day" = [tipGrat] :=
  ⟨(recommender_structure 2 0 "bad sleep last night").1
      (Or.inl (by norm_num)),
   (recommender_structure 2 0 "bad sleep last night").2.2.1.mp (by decide),
   ((recommender_structure 5 (1/2) "great day").2.1
      (by push_neg; exact ⟨by norm_num, by norm_num⟩)).2 (by decide)⟩

/-- Modelled from the spec's words: the standard statistical median — the
middle value of the sorted sequence for an odd count, the average of the two
middle values for an even count. -/
def medianSpec (l : List Int) : Rat :=
  let s := List.insertionSort (fun a b => a ≤ b) l
  let n := s.length
  if n % 2 = 1 then ((s.getD ((n - 1) / 2) 0 : Int) : Rat)
  else (((s.getD (n / 2 - 1) 0 : Int) : Rat) + ((s.getD (n / 2) 0 : Int) : Rat)) / 2

/-- Accessor for the `median_rating` field of a summary result. -/
def Summary.medianField : Summary → Option Rat
  | Summary.countOnly _ => none
  | Summary.stats _ _ m _ => some m

/-- The code's median (CPython `statistics.median`) agrees with the spec's
definition of the median on every data list. -/
lemma pyMedian_eq_medianSpec (l : List Int) : pyMedian l = medianSpec l := by
  unfold pyMedian medianSpec
  by_cases hodd : (List.insertionSort (fun a b => a ≤ b) l).length % 2 = 1
  · simp only [hodd, if_pos]
    have hidx : (List.insertionSort (fun a b => a ≤ b) l).length / 2 =
        ((List.insertionSort (fun a b => a ≤ b) l).length - 1) / 2 := by omega
    rw [hidx]
  · simp only [hodd, if_neg, if_false]

/-- C3: on every non-empty store, `summary` reports as `median_rating` the
standard statistical median of the stored ratings. -/
theorem summary_median_is_spec_median (es : List Entry) (h : es ≠ []) :
    Summary.medianField (summary es) =
      some (medianSpec (es.map Entry.rating)) := by
  simp [summary, h, Summary.medianField, pyMedian_eq_medianSpec]

/-- Four sample check-in rows whose ratings are 1, 2, 3, 4. -/
def sampleEntries : List Entry :=
  [⟨"2025-01-01T00:00:00", 1, "", 0⟩, ⟨"2025-01-02T00:00:00", 2, "", 0⟩,
   ⟨"2025-01-03T00:00:00", 3, "", 0⟩, ⟨"2025-01-04T00:00:00", 4, "", 0⟩]

/-- Witness for C3: on ratings `[1, 2, 3, 4]` the reported median is the
spec median, which equals `2.5`. -/
theorem summary_median_is_spec_median_witness :
    Summary.medianField (summary sampleEntries) =
      some (medianSpec [1, 2, 3, 4])
    ∧ medianSpec [1, 2, 3, 4] = 5 / 2 :=
  ⟨by simpa using summary_median_is_spec_median sampleEntries (by decide),
   by norm_num [medianSpec, List.insertionSort, List.orderedInsert]⟩

/-- C4: on an empty store `summary` succeeds and returns the count-only
result `{'count': 0}`, and the count-only result shape occurs for no other
store. -/
theorem summary_empty_count_only :
    summary [] = Summary.countOnly 0
    ∧ ∀ st : List Entry, summary st = Summary.countOnly 0 → st = [] := by
  constructor
  · simp [summary]
  · intro st h
    by_contra hne
    simp [summary, hne] at h

/-- Witness for C4: the empty store yields the count-only result. -/
theorem summary_empty_count_only_witness :
    summary [] = Summary.countOnly 0 ∧ ([] : List Entry) = [] :=
  ⟨summary_empty_count_only.1, summary_empty_count_only.2 [] (by simp [summary])⟩

/-- One `/submit` request as it reaches the server: the raw `rating` form
field, the optional `note` form field, and the timestamp the server assigns. -/
def stepSubmit (st : List Entry) (q : Option String × Option String × String) :
    List Entry :=
  (submit st q.1 q.2.1 q.2.2).1

/-- Projection of one request to the `/data` row it produces, if any: a
request whose rating parses contributes the 10-character date prefix of its
timestamp together with the parsed rating. -/
def dataRowOf (q : Option String × Option String × String) :
    Option (String × Int) :=
  (q.1.bind pyParseInt).map (fun r => (String.mk (q.2.2.toList.take 10), r))

/-- The `/data` listing after processing requests on top of any store is the
previous listing extended by one row per successfully inserted request, in
order. -/
lemma data_foldl_stepSubmit
    (reqs : List (Option String × Option String × String))
    (st : List Entry) :
    data (reqs.foldl stepSubmit st) = data st ++ reqs.filterMap dataRowOf := by
  induction reqs generalizing st with
  | nil => simp
  | cons q reqs ih =>
    rw [List.foldl_cons, ih, List.filterMap_cons]
    rcases q with ⟨fr, fn, ts⟩
    cases fr with
    | none => simp [stepSubmit, submit, dataRowOf]
    | some rs =>
      cases hp : pyParseInt rs with
      | none => simp [stepSubmit, submit, hp, dataRowOf]
      | some r => simp [stepSubmit, submit, hp, dataRowOf, data]

/-- C5: replaying any sequence of requests against an empty store, the
`/data` listing has one element per inserted entry in insertion order, each
holding the inserted rating and the first 10 characters of the stored
timestamp. -/
theorem data_roundtrip
    (reqs : List (Option String × Option String × String)) :
    data (reqs.foldl stepSubmit []) = reqs.filterMap dataRowOf := by
  simpa [data] using data_foldl_stepSubmit reqs []

/-- C7: a submit request whose rating string does not parse as an integer is
rejected and leaves the stored entries exactly unchanged, producing no
advice. -/
theorem submit_malformed_rating_atomic (st : List Entry) (rs : String)
    (note : Option String) (ts : String) (h : pyParseInt rs = none) :
    submit st (some rs) note ts = (st, none) := by
  simp [submit, h]

/-- Witness for C7: the store is untouched by a submit whose rating is
`"abc"`. -/
theorem submit_malformed_rating_atomic_witness :
    pyParseInt "abc" = none
    ∧ submit [] (some "abc") (some "happy") "2025-01-01T00:00:00" = ([], none) :=
  ⟨by decide,
   submit_malformed_rating_atomic [] "abc" (some "happy") "2025-01-01T00:00:00"
     (by decide)⟩

/-- C10: a submit request with a parseable rating and no note field at all
creates an entry whose note is the empty string and whose sentiment is
exactly 0, and the advice is computed over the empty text. -/
theorem submit_absent_note_defaults (st : List Entry) (rs ts : String)
    (r : Int) (h : pyParseInt rs = some r) :
    submit st (some rs) none ts =
      (st ++ [⟨ts, r, "", 0⟩], some (recommendation r 0 "")) := by
  have h0 : score_sentiment "" = 0 := rfl
  simp [submit, h, h0]

/-- Witness for C10: submitting rating `"4"` with no note appends the entry
`(ts, 4, "", 0)` and recommends over the empty text. -/
theorem submit_absent_note_defaults_witness :
    pyParseInt "4" = some 4
    ∧ submit [] (some "4") none "2025-01-02T00:00:00" =
        ([⟨"2025-01-02T00:00:00", 4, "", 0⟩], some (recommendation 4 0 "")) :=
  ⟨by decide,
   submit_absent_note_defaults [] "4" "2025-01-02T00:00:00" 4 (by decide)⟩

/-- Removal of the leading run of punctuation characters, written by direct
recursion on the token. -/
def stripLeadRec : List Char → List Char
  | [] => []
  | c :: cs => if isPunct c then stripLeadRec cs else c :: cs

/-- Removal of the trailing run of punctuation characters, written by direct
recursion on the token. -/
def stripTrailRec : List Char → List Char
  | [] => []
  | c :: cs =>
    match stripTrailRec cs with
    | [] => if isPunct c then [] else [c]
    | r => c :: r

/-- Modelled from the claim's words for C6: normalisation that strips the
punctuation characters only from the end of the token, keeping leading ones,
then lowercases. -/
def specNormTrailOnly (w : List Char) : String :=
  String.mk ((stripTrailRec w).map Char.toLower)

/-- Token list the Scorer would test under the claimed trailing-only
normalisation. -/
def specTokensTrailOnly (text : String) : List String :=
  (pyWords text.toList).map specNormTrailOnly

lemma stripLeadRec_eq_dropWhile (l : List Char) :
    stripLeadRec l = l.dropWhile isPunct := by
  induction l with
  | nil => rfl
  | cons c cs ih =>
    rw [stripLeadRec, List.dropWhile_cons]
    by_cases h : isPunct c <;> simp [h, ih]

lemma stripTrailRec_eq_dropWhile_reverse (l : List Char) :
    stripTrailRec l = (l.reverse.dropWhile isPunct).reverse := by
  induction l with
  | nil => rfl
  | cons c cs ih =>
    rw [stripTrailRec, ih, List.reverse_cons, List.dropWhile_append]
    cases hcs : cs.reverse.dropWhile isPunct with
    | nil =>
      rw [List.dropWhile_cons]
      by_cases h : isPunct c <;> simp [h]
    | cons x xs => simp [hcs]

/-- Python's `strip('.,!?')` is the trailing-only strip applied after the
leading strip. -/
lemma pyStrip_eq_lead_trail (w : List Char) :
    pyStrip w = stripTrailRec (stripLeadRec w) := by
  rw [stripLeadRec_eq_dropWhile, stripTrailRec_eq_dropWhile_reverse, pyStrip]

/-- Counterexample to C6 as stated: on the token `,happy` the Scorer drops
the leading comma (so the token hits the positive lexicon and the text
scores 1), while the claimed trailing-only normalisation would keep it. -/
theorem scorer_strip_counterexample :
    tokensOf ",happy" = ["happy"]
    ∧ specTokensTrailOnly ",happy" = [",happy"]
    ∧ tokensOf ",happy" ≠ specTokensTrailOnly ",happy"
    ∧ score_sentiment ",happy" = 1 := by
  refine ⟨by decide, by decide, by decide, ?_⟩
  have hp : posCount ",happy" = 1 := by decide
  have hn : negCount ",happy" = 0 := by decide
  simp [score_sentiment, hp, hn]

/-- C6 amended: the Scorer tokenizes by splitting on whitespace and
normalizes each token by stripping the punctuation characters `.,!?` from
both the leading and the trailing end (Python `strip`) and lowercasing,
before testing lexicon membership. -/
theorem scorer_tokenization (text : String) (w : List Char) :
    tokensOf text =
      (pyWords text.toList).map
        (fun v => String.mk ((stripTrailRec (stripLeadRec v)).map Char.toLower))
    ∧ normToken w =
        String.mk ((stripTrailRec (stripLeadRec w)).map Char.toLower)
    ∧ posCount text = ((tokensOf text).filter
        (fun t => POSITIVE.contains t)).length
    ∧ negCount text = ((tokensOf text).filter
        (fun t => NEGATIVE.contains t)).length := by
  refine ⟨?_, ?_, ?_, ?_⟩
  · unfold tokensOf normToken
    simp [pyStrip_eq_lead_trail]
  · rw [normToken, pyStrip_eq_lead_trail]
  · rw [posCount, List.countP_eq_length_filter]
  · rw [negCount, List.countP_eq_length_filter]

/-- The operations the app performs on the store: a `/submit` request with
its raw form fields and server timestamp, and the read-only routes. -/
inductive Op where
  | submitOp (form_rating form_note : Option String) (ts : String)
  | homeOp
  | dataOp
  | summaryOp
deriving DecidableEq

/-- Effect of one request on the stored entries: only `/submit` writes, and
only through `submit`. -/
def step (st : List Entry) (op : Op) : List Entry :=
  match op with
  | Op.submitOp fr fn ts => (submit st fr fn ts).1
  | Op.homeOp => st
  | Op.dataOp => st
  | Op.summaryOp => st

/-- Every operation leaves the previous entries as a prefix of the store. -/
lemma step_extends_store (st : List Entry) (op : Op) : st <+: step st op := by
  cases op with
  | submitOp fr fn ts =>
    cases fr with
    | none => exact List.prefix_refl st
    | some rs =>
      cases hp : pyParseInt rs with
      | none => simp [step, submit, hp]
      | some r =>
        refine ⟨[⟨ts, r, fn.getD "", score_sentiment (fn.getD "")⟩], ?_⟩
        simp [step, submit, hp]
  | homeOp => exact List.prefix_refl st
  | dataOp => exact List.prefix_refl st
  | summaryOp => exact List.prefix_refl st

/-- The derived-sentiment invariant survives any run of operations. -/
lemma sentiment_invariant_foldl (ops : List Op) (st : List Entry)
    (h : ∀ e ∈ st, e.sentiment = score_sentiment e.note) :
    ∀ e ∈ ops.foldl step st, e.sentiment = score_sentiment e.note := by
  induction ops generalizing st with
  | nil => exact h
  | cons op ops ih =>
    rw [List.foldl_cons]
    apply ih
    intro e he
    cases op with
    | submitOp fr fn ts =>
      cases fr with
      | none => exact h e he
      | some rs =>
        cases hp : pyParseInt rs with
        | none => simp only [step, submit, hp] at he; exact h e he
        | some r =>
          simp only [step, submit, hp, List.mem_append,
            List.mem_singleton] at he
          rcases he with he | he
          · exact h e he
          · subst he; rfl
    | homeOp => exact h e he
    | dataOp => exact h e he
    | summaryOp => exact h e he

/-- C8: the store is append-only — every operation leaves the existing
entries as an unchanged prefix — and after any run of operations from the
empty store every entry's sentiment equals the Scorer applied to its note as
fixed at insertion time. -/
theorem store_append_only_sentiment_cached :
    (∀ (st : List Entry) (op : Op), st <+: step st op)
    ∧ ∀ (ops : List Op), ∀ e ∈ ops.foldl step [],
        e.sentiment = score_sentiment e.note :=
  ⟨step_extends_store, fun ops => sentiment_invariant_foldl ops [] (by intro e he; cases he)⟩

/-- Witness for C8: a read-only request keeps the sample store as a prefix,
and the entry created by a concrete submit run carries the sentiment of its
note. -/
theorem store_append_only_sentiment_cached_witness :
    sampleEntries <+: step sampleEntries Op.dataOp
    ∧ Entry.sentiment ⟨"2025-01-02T00:00:00", 4, "", 0⟩ =
        score_sentiment (Entry.note ⟨"2025-01-02T00:00:00", 4, "", 0⟩) :=
  ⟨store_append_only_sentiment_cached.1 sampleEntries Op.dataOp,
   store_append_only_sentiment_cached.2
     [Op.submitOp (some "4") none "2025-01-02T00:00:00"]
     ⟨"2025-01-02T00:00:00", 4, "", 0⟩ (by decide)⟩

/-- State of the SQLite database file: whether a table named `entries`
exists (and with which column list), plus its rows. -/
structure DBState where
  entriesTable : Option (List String)
  rows : List Entry
deriving DecidableEq

/-- Column list declared by the `CREATE TABLE` statement of `init_db`,
`backend.py` lines 61-63. -/
def declaredFields : List String := ["id", "date", "rating", "note", "sentiment"]

/-- Initialization `init_db`, `backend.py` lines 59-65: `CREATE TABLE IF NOT EXISTS` creates
the `entries` table with the declared columns when no table of that name
exists, and is a no-op otherwise — SQLite does not compare an existing
table's columns against the statement; rows are never touched. -/
def init_db (s : DBState) : DBState :=
  match s.entriesTable with
  | none => ⟨some declaredFields, s.rows⟩
  | some _ => s

/-- Counterexample to C9 as stated: started from a database that already has
an `entries` table with a different column list, initialization leaves that
column list in place rather than the declared fields. -/
theorem init_db_counterexample :
    (init_db ⟨some ["foo"], []⟩).entriesTable ≠ some declaredFields := by
  decide

lemma init_db_idem (s : DBState) : init_db (init_db s) = init_db s := by
  cases h : s.entriesTable <;> simp [init_db, h]

/-- C9 amended: initialization is idempotent — any positive number of runs
equals one run — it never drops the `entries` table or discards rows, it
creates the table with the declared fields when absent, and it leaves an
already-present table's fields unchanged. -/
theorem init_db_idempotent (s : DBState) (n : Nat) :
    init_db^[n + 1] s = init_db s
    ∧ (init_db s).rows = s.rows
    ∧ (init_db s).entriesTable.isSome = true
    ∧ (s.entriesTable = none → (init_db s).entriesTable = some declaredFields)
    ∧ (∀ f, s.entriesTable = some f → (init_db s).entriesTable = some f) := by
  refine ⟨?_, ?_, ?_, ?_, ?_⟩
  · induction n generalizing s with
    | zero => simp
    | succ m ih =>
      rw [Function.iterate_succ_apply, ih (init_db s), init_db_idem]
  · cases h : s.entriesTable <;> simp [init_db, h]
  · cases h : s.entriesTable <;> simp [init_db, h]
  · intro h; simp [init_db, h]
  · intro f h; simp [init_db, h]

/-- Witness for C9: two runs on an empty database equal one, the table is
created with the declared fields, and a pre-existing table with foreign
fields keeps them. -/
theorem init_db_idempotent_witness :
    init_db^[2] ⟨none, []⟩ = init_db ⟨none, []⟩
    ∧ (init_db ⟨none, []⟩).entriesTable = some declaredFields
    ∧ (init_db ⟨some ["foo"], []⟩).entriesTable = some ["foo"] :=
  ⟨(init_db_idempotent ⟨none, []⟩ 1).1,
   (init_db_idempotent ⟨none, []⟩ 0).2.2.2.1 rfl,
   (init_db_idempotent ⟨some ["foo"], []⟩ 0).2.2.2.2 ["foo"] rfl⟩
